import Mathlib

/-!
Verification of the VoiceVite call-orchestration core: script templating,
call dispatch, webhook/callback handling and the guest/RSVP state machine.
The definitions below are a shallow embedding of the Python source
(`app.py`, `src/call_handling/vapi_handler.py`, `src/db_access/postgres_client.py`,
`app-backup.py`); strings are modelled as Lean `String`/`List Char`,
machine behaviour of Python library calls (`str.capitalize`, `str.isdigit`,
`int(...)`, `str.strip`, `str.split`) is modelled by explicit functions whose
doc comments record the modelled fragment.
-/

/-! ### Generic string helpers (List Char model of Python strings) -/

/-- Whether `pat` occurs at the very start of `s` (character-wise). -/
def leadsWith : List Char → List Char → Bool
  | [], _ => true
  | _ :: _, [] => false
  | p :: ps, c :: cs => p == c && leadsWith ps cs

/-- Number of (possibly overlapping) occurrences of `pat` in `s`;
for nonempty `pat` this counts every start position at which `pat` matches,
mirroring how Python substring search sees a string. -/
def countOccur (pat : List Char) : List Char → Nat
  | [] => 0
  | c :: cs => (if leadsWith pat (c :: cs) then 1 else 0) + countOccur pat cs

/-- Whether `pat` occurs anywhere in `s`: model of Python `pat in s`. -/
def occursIn (pat : List Char) : List Char → Bool
  | [] => leadsWith pat []
  | c :: cs => leadsWith pat (c :: cs) || occursIn pat cs

/-- ASCII lower-casing of a string: model of Python `str.lower` restricted to
ASCII input (all strings handled by the program are ASCII except where noted). -/
def strLower (s : String) : String := ⟨s.toList.map Char.toLower⟩

/-- Two's complement-free decimal value of a list of ASCII digits. -/
def digitsVal : List Char → Option Nat
  | [] => none
  | ds => if ds.all Char.isDigit then
            some (ds.foldl (fun a c => 10 * a + (c.toNat - 48)) 0)
          else none

/-- Strip leading and trailing whitespace: model of Python `str.strip()`. -/
def pyStripList (cs : List Char) : List Char :=
  ((cs.dropWhile Char.isWhitespace).reverse.dropWhile Char.isWhitespace).reverse

/-- Model of Python `int(s)` restricted to the forms the program feeds it:
optional surrounding whitespace, an optional sign, then one or more ASCII
decimal digits.  Exotic accepted forms of CPython (underscore grouping,
non-ASCII decimal digits) are outside the model; on every other input the
model returns `none` exactly where `int(s)` raises `ValueError`. -/
def pyParseInt (s : String) : Option Int :=
  match pyStripList s.toList with
  | '+' :: ds => (digitsVal ds).map (fun n => (n : Int))
  | '-' :: ds => (digitsVal ds).map (fun n => -(n : Int))
  | ds => (digitsVal ds).map (fun n => (n : Int))

/-- Model of Python `str.capitalize()` on ASCII strings: upper-case the first
character, lower-case the rest. -/
def pyCapitalize (s : String) : String :=
  match s.toList with
  | [] => ""
  | c :: cs => ⟨c.toUpper :: cs.map Char.toLower⟩

/-- Whether a Python string is empty or whitespace-only, i.e.
`not s or s.strip() == ""`. -/
def pyBlank (s : String) : Bool := s.toList.all Char.isWhitespace

/-- Truthiness of an optional string field read from JSON: `None` and the
empty string are falsy, like Python `if not x`. -/
def truthyS : Option String → Bool
  | none => false
  | some s => !(s == "")

/-- Model of Python `a or b` on two optional strings (falsy left operand
selects the right operand). -/
def pyOrOpt (a b : Option String) : Option String :=
  match a with
  | some s => if s == "" then b else some s
  | none => b

/-- Model of Python `a or dflt` producing a plain string. -/
def pyOrStr (a : Option String) (dflt : String) : String :=
  match a with
  | some s => if s == "" then dflt else s
  | none => dflt

/-! ### Data model (src/models.py) -/

/-- A guest row: `Guest` in `src/models.py` (id, owning event, name, phone,
call status). -/
structure Guest where
  id : Int
  event_id : Int
  guest_name : String
  phone_number : String
  call_status : String
deriving DecidableEq, Repr

/-- An RSVP row: `RSVP` in `src/models.py`. -/
structure RSVPRow where
  guest_id : Int
  event_id : Int
  response : String
  summary : String
  special_request : Option String
  reminder_request : Option String
deriving DecidableEq, Repr

/-- The RSVP payload handed to `create_rsvp` (the `rsvp_data` dict). -/
structure RSVPData where
  response : String
  summary : String
  special_request : Option String
  reminder_request : Option String
deriving DecidableEq, Repr

/-- The database state the claims observe: guest rows, existing event ids,
and the append-only RSVP table. -/
structure DBState where
  guests : List Guest
  events : List Int
  rsvps : List RSVPRow
deriving DecidableEq, Repr

/-- `postgres_client.get_guest_by_id`: primary-key lookup. -/
def get_guest_by_id (s : DBState) (gid : Int) : Option Guest :=
  s.guests.find? (fun g => g.id == gid)

/-- `postgres_client.update_guest_call_status`: set `call_status` of the guest
with the given id; a missing guest leaves the state unchanged. -/
def update_guest_call_status (s : DBState) (gid : Int) (st : String) : DBState :=
  { s with guests := s.guests.map (fun g => if g.id == gid then { g with call_status := st } else g) }

/-- `postgres_client.create_rsvp`: refuse (returning `None`, no insert) when
the referenced guest or event is missing; otherwise append one RSVP row with
the foreign keys taken from the arguments. -/
def create_rsvp (s : DBState) (gid eid : Int) (d : RSVPData) : Option RSVPRow × DBState :=
  match get_guest_by_id s gid with
  | none => (none, s)
  | some _ =>
    if s.events.contains eid then
      let row : RSVPRow := { guest_id := gid, event_id := eid, response := d.response,
                             summary := d.summary, special_request := d.special_request,
                             reminder_request := d.reminder_request }
      (some row, { s with rsvps := s.rsvps ++ [row] })
    else (none, s)

/-! ### Webhook and callback handlers (app.py) -/

/-- The correlation block `metadata{guestId, eventId}` of an inbound message;
both ids arrive as JSON strings and may be absent. -/
structure Metadata where
  guestId : Option String
  eventId : Option String
deriving DecidableEq, Repr

/-- `analysis.structuredData` of a Vapi end-of-call report. -/
structure StructuredData where
  rsvp_response : Option String
  special_request : Option String
  reminder_call_details : Option String
deriving DecidableEq, Repr

/-- `analysis` of a Vapi end-of-call report; an absent analysis is the
all-`none` record (`message.get('analysis', \x7b\x7d)`). -/
structure Analysis where
  summary : Option String
  structuredData : StructuredData
deriving DecidableEq, Repr

/-- The structured webhook envelope handled by `/webhook` after unwrapping
`event_data.get('message', event_data)`: type tag, call status, the call
metadata (`message.call.metadata`) and the analysis block. -/
structure WebhookMsg where
  msgType : Option String
  status : Option String
  metadata : Metadata
  analysis : Analysis
deriving DecidableEq, Repr

/-- An HTTP response of a Flask endpoint: status code plus JSON status body. -/
structure HttpResp where
  code : Nat
  body : String
deriving DecidableEq, Repr

/-- The raw `rsvp_response` after the defaulting in the webhook handler:
`structuredData.get('rsvp_response', 'No Response')`, then blank values
(empty or whitespace-only) are replaced by `"No Response"`. -/
def defaultedRsvpResponse (o : Option String) : String :=
  let raw := o.getD "No Response"
  if pyBlank raw then "No Response" else raw

/-- The `/webhook` endpoint of `app.py` on a structured Vapi message:
`status-update` messages only mark failures (never touching guests whose
`call_status` is already `"Called - RSVP Received"`, `"Failed - API Error"`
or `"Call Failed"`, and always answering 200); `end-of-call-report` messages
reject missing or unparsable correlation ids with 400 and otherwise persist
an RSVP via `create_rsvp` and mark the guest `"Called - RSVP Received"`. -/
def webhook (s : DBState) (m : WebhookMsg) : HttpResp × DBState :=
  if m.msgType == some "status-update" then
    if m.status == some "failed" then
      match m.metadata.guestId with
      | some gidStr =>
        if gidStr == "" then ({ code := 200, body := "Webhook event received" }, s)
        else
          match pyParseInt gidStr with
          | some gid =>
            match get_guest_by_id s gid with
            | some g =>
              if ["Called - RSVP Received", "Failed - API Error", "Call Failed"].contains g.call_status then
                ({ code := 200, body := "Webhook event received" }, s)
              else
                ({ code := 200, body := "Webhook event received" },
                 update_guest_call_status s gid "Failed - VAPI Status Update")
            | none => ({ code := 200, body := "Webhook event received" }, s)
          | none => ({ code := 200, body := "Webhook event received" }, s)
      | none => ({ code := 200, body := "Webhook event received" }, s)
    else ({ code := 200, body := "Webhook event received" }, s)
  else if m.msgType == some "end-of-call-report" then
    if !(truthyS m.metadata.guestId) || !(truthyS m.metadata.eventId) then
      ({ code := 400, body := "Missing guestId or eventId" }, s)
    else
      match pyParseInt (m.metadata.guestId.getD ""), pyParseInt (m.metadata.eventId.getD "") with
      | some gid, some eid =>
        let sd := m.analysis.structuredData
        let d : RSVPData := { response := pyCapitalize (defaultedRsvpResponse sd.rsvp_response),
                              summary := m.analysis.summary.getD "",
                              special_request := sd.special_request,
                              reminder_request := sd.reminder_call_details }
        match create_rsvp s gid eid d with
        | (some _, s1) =>
          ({ code := 200, body := "Webhook event received" },
           update_guest_call_status s1 gid "Called - RSVP Received")
        | (none, s1) => ({ code := 200, body := "Webhook event received" }, s1)
      | _, _ => ({ code := 400, body := "Invalid guestId or eventId format" }, s)
  else ({ code := 200, body := "Webhook event received" }, s)

/-- The body of a simple Vapi callback handled by `/vapi/callback`:
status, correlation metadata, optional summary/transcript text, and the
optional `error.message`. -/
structure CallbackData where
  status : Option String
  metadata : Metadata
  summary : Option String
  transcript : Option String
  errorMessage : Option String
deriving DecidableEq, Repr

/-- RSVP classification of transcription text in `vapi_callback`: case-fold,
then look for the substrings `"yes"`, `"no"`, `"maybe"`/`"not sure"` in that
order, defaulting to `"No Response"`. -/
def classify_transcription (t : String) : String :=
  let p := (strLower t).toList
  if occursIn "yes".toList p then "Yes"
  else if occursIn "no".toList p then "No"
  else if occursIn "maybe".toList p || occursIn "not sure".toList p then "Maybe"
  else "No Response"

/-- The `/vapi/callback` endpoint of `app.py`: reject missing or unparsable
correlation ids with 400; on `status == "success"` classify the transcription
(summary falling back to transcript), persist an RSVP via `create_rsvp` and
mark the guest `"Called - RSVP Received"`; on `status == "failed"` mark the
guest `"Failed - API Error"` and log a `"Call Failed"` RSVP; otherwise only
acknowledge. -/
def vapi_callback (s : DBState) (d : CallbackData) : HttpResp × DBState :=
  let transcription := pyOrOpt d.summary d.transcript
  if !(truthyS d.metadata.guestId) || !(truthyS d.metadata.eventId) then
    ({ code := 400, body := "Missing guestId or eventId" }, s)
  else
    match pyParseInt (d.metadata.guestId.getD ""), pyParseInt (d.metadata.eventId.getD "") with
    | some gid, some eid =>
      let summaryText := pyOrStr transcription "No transcription available from Vapi callback."
      let finalStatus := match transcription with
        | some t => if t == "" then "No Response" else classify_transcription t
        | none => "No Response"
      if d.status == some "success" then
        let rd : RSVPData := { response := finalStatus, summary := summaryText,
                               special_request := none, reminder_request := none }
        match create_rsvp s gid eid rd with
        | (some _, s1) =>
          ({ code := 200, body := "Callback processed" },
           update_guest_call_status s1 gid "Called - RSVP Received")
        | (none, s1) => ({ code := 200, body := "Callback processed" }, s1)
      else if d.status == some "failed" then
        let s1 := update_guest_call_status s gid "Failed - API Error"
        let rd : RSVPData := { response := "Call Failed",
                               summary := d.errorMessage.getD "Vapi call failed",
                               special_request := none, reminder_request := none }
        ({ code := 200, body := "Callback processed" }, (create_rsvp s1 gid eid rd).2)
      else
        ({ code := 200, body := "Callback status noted, no final RSVP action." }, s)
    | _, _ => ({ code := 400, body := "Invalid guestId or eventId format" }, s)

/-! ### Call dispatch (app.py initiate_vapi_call, vapi_handler.py) -/

/-- The outcome of the one HTTP POST to the call provider inside
`make_outbound_call`: a 2xx response with a parsed `results` id list, an HTTP
error status (raised by `raise_for_status`), a transport error raised by
`requests.post`, a body that fails to parse (`KeyError`/`JSONDecodeError`),
a missing prompt file, or any other exception (e.g. `ValueError` from
`datetime.strptime` on a malformed event date). -/
inductive VapiNet where
  | ok (results : List String)
  | httpErr
  | transportErr
  | parseErr
  | fileErr
  | otherExn
deriving DecidableEq, Repr

/-- `VapiHandler.make_outbound_call`: returns the first id of the response
`results` list when present, `None` when the list is absent or empty, and
`None` for every caught exception class (`RequestException`, which includes
HTTP-status errors, `KeyError`/`JSONDecodeError`, `FileNotFoundError`);
any other exception propagates to the caller (`Except.error`). -/
def make_outbound_call : VapiNet → Except String (Option String)
  | .ok rs => .ok rs.head?
  | .httpErr => .ok none
  | .transportErr => .ok none
  | .parseErr => .ok none
  | .fileErr => .ok none
  | .otherExn => .error "unhandled exception"

/-- `initiate_vapi_call` in `app.py`, observed through the list of
`update_guest_call_status` writes it performs.  The function is total: the
`try`/`except Exception` wrapper converts every escaping exception into a
status write (guarded by Python truthiness of `guest_id`, so id `0` would
skip the write). -/
def initiate_vapi_call (gid : Int) (net : VapiNet) : List (Int × String) :=
  match make_outbound_call net with
  | .ok (some _) => [(gid, "Called - Initiated")]
  | .ok none => [(gid, "Failed - API Error")]
  | .error _ => if gid == 0 then [] else [(gid, "Failed - API Error")]

/-- The one-request-per-guest dispatch loop of `confirm_and_send_invitations`,
observed through the concatenated per-guest status writes. -/
def per_guest_dispatch (guests : List Guest) (netf : Int → VapiNet) : List (Int × String) :=
  (guests.map (fun g => initiate_vapi_call g.id (netf g.id))).flatten

/-- A `customers[]` entry of a provider call payload. -/
structure BulkCustomer where
  number : String
  name : String
deriving DecidableEq, Repr

/-- The `metadata` block of a provider call payload. -/
structure CallMetadata where
  guestId : Option String
  eventId : Option String
  voiceSampleId : Option String
deriving DecidableEq, Repr

/-- The observable shape of a provider call request: its customer list and
its metadata block. -/
structure CallPayload where
  customers : List BulkCustomer
  metadata : CallMetadata
deriving DecidableEq, Repr

/-- Model of Python `str(x)` on an optional string (`str(None) = "None"`). -/
def pyStr (o : Option String) : String :=
  match o with
  | some s => s
  | none => "None"

/-- The payload shape built by `make_outbound_call` for one guest: one
customer entry and a metadata block carrying the guest database id and the
event id as strings. -/
def single_call_payload (g : Guest) (eventId voiceSampleId : Option String) : CallPayload :=
  { customers := [{ number := g.phone_number, name := g.guest_name }],
    metadata := { guestId := some (toString g.id), eventId := some (pyStr eventId),
                  voiceSampleId := voiceSampleId } }

/-- The payload shape built by `make_bulk_outbound_call`: one customer entry
per guest whose `name` is `"<guest_name> [<guest_id>]"`, and a metadata block
carrying only the event id and voice sample id — no `guestId` key. -/
def bulk_call_payload (guests : List Guest) (eventId voiceSampleId : Option String) : CallPayload :=
  { customers := guests.map (fun g =>
      { number := g.phone_number, name := g.guest_name ++ " [" ++ toString g.id ++ "]" }),
    metadata := { guestId := none, eventId := eventId, voiceSampleId := voiceSampleId } }

/-- `VapiHandler.make_bulk_outbound_call`, observed as the request it issues
(when the POST does not raise) together with the guest status writes it
performs.  The source contains no `update_guest_call_status` call in this
function, and no caller in `app.py` invokes it or applies status transitions
for it, so its write list is empty in every run; every exception is caught
and turned into a `None` return. -/
def make_bulk_outbound_call (guests : List Guest) (eventId voiceSampleId : Option String)
    (net : VapiNet) : Option CallPayload × List (Int × String) :=
  match net with
  | .ok _ => (some (bulk_call_payload guests eventId voiceSampleId), [])
  | _ => (none, [])

/-! ### Script templating (app.py _generate_event_script, vapi_handler.py) -/

/-- A calendar date (year, month, day), the model of `datetime.date`. -/
structure DateYMD where
  year : Nat
  month : Nat
  day : Nat
deriving DecidableEq, Repr

/-- A time of day (hour, minute), the model of `datetime.time` as used by the
program (seconds never appear). -/
structure TimeHM where
  hour : Nat
  minute : Nat
deriving DecidableEq, Repr

/-- Zero-padded two-digit rendering of a number below 100. -/
def pad2 (n : Nat) : String :=
  if n < 10 then "0" ++ toString n else toString n

/-- English month name, as produced by `strftime('%B')`. -/
def monthName (m : Nat) : String :=
  ["January", "February", "March", "April", "May", "June", "July",
   "August", "September", "October", "November", "December"].getD (m - 1) ""

/-- Day of week by Zeller's congruence (0 = Saturday, ..., 6 = Friday),
modelling the weekday `strftime('%A')` reports for a Gregorian date. -/
def zellerDow (d : DateYMD) : Nat :=
  let m := if d.month ≤ 2 then d.month + 12 else d.month
  let y := if d.month ≤ 2 then d.year - 1 else d.year
  let K := y % 100
  let J := y / 100
  (d.day + (13 * (m + 1)) / 5 + K + K / 4 + J / 4 + 5 * J) % 7

/-- English weekday name, as produced by `strftime('%A')`. -/
def weekdayName (d : DateYMD) : String :=
  ["Saturday", "Sunday", "Monday", "Tuesday", "Wednesday", "Thursday",
   "Friday"].getD (zellerDow d) ""

/-- `strftime('%A, %B %d, %Y')`: long human-readable date. -/
def fmtLongDate (d : DateYMD) : String :=
  weekdayName d ++ ", " ++ monthName d.month ++ " " ++ pad2 d.day ++ ", " ++ toString d.year

/-- `strftime('%I:%M %p').lstrip("0")`: 12-hour clock with the leading zero
of the hour removed. -/
def fmt12 (h m : Nat) : String :=
  toString (((h + 11) % 12) + 1) ++ ":" ++ pad2 m ++ " " ++ (if h < 12 then "AM" else "PM")

/-- Gregorian leap-year test. -/
def isLeap (y : Nat) : Bool :=
  (y % 4 == 0 && y % 100 != 0) || y % 400 == 0

/-- Number of days in a Gregorian month. -/
def daysInMonth (y m : Nat) : Nat :=
  if m == 2 then (if isLeap y then 29 else 28)
  else if [4, 6, 9, 11].contains m then 30
  else 31

/-- The date one day later: `event_date + timedelta(days=1)`. -/
def nextDay (d : DateYMD) : DateYMD :=
  if d.day < daysInMonth d.year d.month then ⟨d.year, d.month, d.day + 1⟩
  else if d.month < 12 then ⟨d.year, d.month + 1, 1⟩
  else ⟨d.year + 1, 1, 1⟩

/-- The event record as seen by `_generate_event_script` (the fields it
reads; date and time are resolved objects or `None`). -/
structure EventRec where
  host_name : Option String
  event_type : Option String
  event_date : Option DateYMD
  event_time : Option TimeHM
  duration : Option String
  location : Option String
  cultural_preferences : Option String
  special_instructions : Option String
  rsvp_deadline : Option DateYMD
deriving DecidableEq, Repr

/-- `event.event_time.strftime('%I:%M %p').lstrip("0")` with the
`"a suitable time"` fallback. -/
def fmtEventTime (t : Option TimeHM) : String :=
  match t with
  | some t => fmt12 t.hour t.minute
  | none => "a suitable time"

/-- The `[ArrivalTime]` computation of `_generate_event_script`: when both
date and time are present, the clock time 15 minutes before the event
(`datetime.combine(...) - timedelta(minutes=15)` formatted with
`'%I:%M %p'` and the leading zero stripped); otherwise the fixed fallback
phrase.  `special_instructions` is never consulted. -/
def gen_arrival_time (date? : Option DateYMD) (time? : Option TimeHM) : String :=
  match date?, time? with
  | some _, some t =>
    let total := (t.hour * 60 + t.minute + 1425) % 1440
    fmt12 (total / 60) (total % 60)
  | _, _ => "15 minutes before the event (specific time not set)"

/-- First index at which `pat` occurs in `s` (callers guard with
`occursIn`): model of Python `str.find` on present patterns. -/
def findSub (pat : List Char) : List Char → Nat
  | [] => 0
  | c :: cs => if leadsWith pat (c :: cs) then 0 else 1 + findSub pat cs

/-- The `[DressCode]` derivation of `_generate_event_script`: locate
`"dress code"` case-insensitively, strip the characters of `": is."` from
the left of what follows, cut at the first `'.'`, then at the first `';'`,
strip whitespace, and fall back to `"not specified"` when absent or empty. -/
def derive_dress_code (si : Option String) : String :=
  match si with
  | none => "not specified"
  | some si =>
    if si == "" then "not specified"
    else
      let siLower := (strLower si).toList
      let marker := "dress code".toList
      if occursIn marker siLower then
        let start := findSub marker siLower + marker.length
        let afterMarker := (si.toList.drop start).dropWhile
          (fun c => [':', ' ', 'i', 's', '.'].contains c)
        let afterMarker := pyStripList afterMarker
        let pot := pyStripList ((afterMarker.takeWhile (fun c => !(c == '.'))).takeWhile
          (fun c => !(c == ';')))
        if pot.isEmpty then "not specified" else ⟨pot⟩
      else "not specified"

/-- The substitution dictionary `variable_values` of `_generate_event_script`,
in source order, with the source's falsy-field fallbacks. -/
def variable_values (e : EventRec) (guestPh : String) : List (String × String) :=
  [("[HostName]", pyOrStr e.host_name "the host"),
   ("[GuestName]", guestPh),
   ("[EventType]", pyOrStr e.event_type "an event"),
   ("[EventDate]", match e.event_date with
                   | some d => fmtLongDate d
                   | none => "a future date"),
   ("[EventTime]", fmtEventTime e.event_time),
   ("[Location]", pyOrStr e.location "a location"),
   ("[CulturalPreferences]", pyOrStr e.cultural_preferences ""),
   ("[SpecialInstructions]", pyOrStr e.special_instructions ""),
   ("[Duration]", pyOrStr e.duration "a few hours"),
   ("[RSVPDeadline]", match e.rsvp_deadline with
                      | some d => fmtLongDate d
                      | none => "soon"),
   ("[ArrivalTime]", gen_arrival_time e.event_date e.event_time),
   ("[DressCode]", derive_dress_code e.special_instructions),
   ("[AlternateDate]", match e.event_date with
                       | some d => fmtLongDate (nextDay d)
                       | none => "the next day"),
   ("[AlternateTime]", fmtEventTime e.event_time)]

/-- Value bound to a placeholder key in `variable_values`; an unknown key is
left as-is (an unreplaced bracket token). -/
def lookupVal (vals : List (String × String)) (k : String) : String :=
  match vals.find? (fun p => p.1 == k) with
  | some p => p.2
  | none => k

/-- A piece of the prompt template: literal text or a bracketed placeholder. -/
inductive TplToken where
  | lit (s : String)
  | ph (k : String)
deriving DecidableEq, Repr

/-- Modelled from the spec: the prompt template file
`src/voice_config/VoiceAssitantPrompt.md` is not part of the repository
snapshot.  Per spec §4.1 it is static text containing the bracketed
placeholders `[HostName]`, `[GuestName]`, `[EventType]`, `[EventDate]`,
`[EventTime]`, `[Location]`, `[CulturalPreferences]`,
`[SpecialInstructions]`, `[Duration]`, `[RSVPDeadline]`, `[ArrivalTime]`,
`[DressCode]`, `[AlternateDate]` and `[AlternateTime]`, with the guest-name
placeholder occurring exactly once. -/
def promptTemplate : List TplToken :=
  [.lit "You are a warm, polite voice assistant calling on behalf of ",
   .ph "[HostName]",
   .lit ". You are inviting ",
   .ph "[GuestName]",
   .lit " to a ",
   .ph "[EventType]",
   .lit " on ",
   .ph "[EventDate]",
   .lit " at ",
   .ph "[EventTime]",
   .lit ", held at ",
   .ph "[Location]",
   .lit ". The celebration lasts ",
   .ph "[Duration]",
   .lit ". Cultural preferences: ",
   .ph "[CulturalPreferences]",
   .lit ". Special instructions: ",
   .ph "[SpecialInstructions]",
   .lit ". Guests should plan to arrive by ",
   .ph "[ArrivalTime]",
   .lit ". The dress code is ",
   .ph "[DressCode]",
   .lit ". If the date does not work, offer ",
   .ph "[AlternateDate]",
   .lit " at ",
   .ph "[AlternateTime]",
   .lit " instead. Please collect an RSVP before ",
   .ph "[RSVPDeadline]",
   .lit ". Record the response as yes, no or maybe."]

/-- The segments of the substituted template: literals verbatim, each known
placeholder replaced by its value. -/
def renderSegs (tpl : List TplToken) (vals : List (String × String)) : List (List Char) :=
  tpl.map (fun t => match t with
    | .lit s => s.toList
    | .ph k => (lookupVal vals k).toList)

/-- Concatenation of the segments into the final script text. -/
def joinSegs (l : List (List Char)) : List Char := l.foldr (· ++ ·) []

/-- `_generate_event_script`: substitute all `variable_values` into the
prompt template, leaving the guest-name placeholder token for later
per-guest substitution. -/
def generate_event_script (e : EventRec) (guestPh : String) : List Char :=
  joinSegs (renderSegs promptTemplate (variable_values e guestPh))

/-- Accumulator pass for `pySplitWs`: `acc` holds the current token in
reverse. -/
def splitWsAux : List Char → List Char → List (List Char)
  | [], acc => if acc.isEmpty then [] else [acc.reverse]
  | c :: cs, acc =>
    if c.isWhitespace then
      if acc.isEmpty then splitWsAux cs [] else acc.reverse :: splitWsAux cs []
    else splitWsAux cs (c :: acc)

/-- Model of Python `str.split()` (no argument): split on runs of
whitespace, producing no empty tokens. -/
def pySplitWs (cs : List Char) : List (List Char) := splitWsAux cs []

/-- The digit-token scan of `VapiHandler.make_outbound_call`: the value of
the first whitespace-delimited token of `s` consisting of digits
(`for part in s.split(): if part.isdigit(): minutes = int(part); break`),
with `isdigit`/`int` modelled on ASCII digit tokens. -/
def firstDigitToken (s : String) : Option Nat :=
  ((pySplitWs s.toList).find? (fun t => !t.isEmpty && t.all Char.isDigit)).map
    (fun t => t.foldl (fun a c => 10 * a + (c.toNat - 48)) 0)

/-- The `[ArrivalTime]` computation of `VapiHandler.make_outbound_call`: the
literal phrase `"<n> minutes before the event"`, where `n` is the first
digit token of `special_instructions` when the word `"arrive"` occurs in it
(case-insensitively), and 15 otherwise.  No clock time is ever produced
(the `arrival_datetime` the source computes is discarded). -/
def vapi_arrival_time (si : String) : String :=
  let siLower := strLower si
  if occursIn "arrive".toList siLower.toList then
    match firstDigitToken siLower with
    | some n => toString n ++ " minutes before the event"
    | none => "15 minutes before the event"
  else "15 minutes before the event"

/-! ### Phone validation (app-backup.py event_details_step2) -/

/-- Model of Python `str.isdigit` at the character level: true for the
characters with Unicode property Numeric_Type of Digit or Decimal.  The
model covers all ASCII characters exactly, plus representative non-ASCII
characters Python accepts: the Arabic-Indic digits U+0660 to U+0669 and the
Latin-1 superscripts one, two and three. -/
def pyIsDigitChar (c : Char) : Bool :=
  c.isDigit || (0x660 ≤ c.toNat && c.toNat ≤ 0x669)
    || c.toNat == 0xB9 || c.toNat == 0xB2 || c.toNat == 0xB3

/-- The manual-entry phone validation of `app-backup.py`: accept `phone` iff
`phone.startswith('+') and phone[1:].isdigit()` (Python `isdigit` of the
empty string is false, so at least one digit is required). -/
def python_phone_valid : List Char → Bool
  | [] => false
  | c :: rest => c == '+' && (!rest.isEmpty && rest.all pyIsDigitChar)

/-- Written from the spec's words (§8): acceptance by the regular expression
`^\+[0-9]+$` — a plus sign followed by one or more ASCII digits. -/
def spec_e164 : List Char → Bool
  | [] => false
  | c :: rest => c == '+' && (!rest.isEmpty && rest.all Char.isDigit)

/-! ### Shared helper lemmas -/

/-- A status write by `update_guest_call_status` never touches the RSVP
table. -/
theorem update_guest_call_status_rsvps (s : DBState) (gid : Int) (st : String) :
    (update_guest_call_status s gid st).rsvps = s.rsvps := rfl

/-- One dispatch attempt performs exactly one status write for a guest with
a truthy (nonzero) database id. -/
theorem initiate_vapi_call_length (gid : Int) (net : VapiNet) (h : gid ≠ 0) :
    (initiate_vapi_call gid net).length = 1 := by
  unfold initiate_vapi_call
  cases hn : make_outbound_call net with
  | ok o => cases o <;> rfl
  | error e =>
    have : (gid == 0) = false := by simpa using h
    simp [this]

/-! ### C2 -/

/-- C2: for a guest whose current `call_status` is `"Called - RSVP Received"`,
a `status-update` webhook with status `"failed"` for that guest leaves the
database state (in particular the guest's `call_status`) unchanged. -/
theorem C2_no_downgrade (s : DBState) (m : WebhookMsg) (g : Guest) (gidStr : String)
    (hty : m.msgType = some "status-update") (hst : m.status = some "failed")
    (hmd : m.metadata.guestId = some gidStr) (hne : gidStr ≠ "")
    (hp : pyParseInt gidStr = some g.id)
    (hg : get_guest_by_id s g.id = some g)
    (hcs : g.call_status = "Called - RSVP Received") :
    (webhook s m).2 = s := by
  have hne' : (gidStr == "") = false := by simpa using hne
  simp [webhook, hty, hst, hmd, hne', hp, hg, hcs]

def c2Guest : Guest := ⟨1, 1, "Liam", "+15551234567", "Called - RSVP Received"⟩

def c2State : DBState := ⟨[c2Guest], [1], []⟩

def c2Msg : WebhookMsg :=
  ⟨some "status-update", some "failed", ⟨some "1", none⟩, ⟨none, ⟨none, none, none⟩⟩⟩

/-- C2 witness: a concrete guest in the terminal success state survives a
concrete failed status-update unchanged. -/
theorem C2_witness : (webhook c2State c2Msg).2 = c2State :=
  C2_no_downgrade c2State c2Msg c2Guest "1" rfl rfl rfl (by decide) (by decide)
    (by decide) rfl

/-! ### C9 -/

/-- C9: the failure states `"Failed - API Error"` and `"Call Failed"` are
also terminal against `status-update` overwrites: a `status-update` with
status `"failed"` leaves such a guest's state unchanged. -/
theorem C9_failure_states_terminal (s : DBState) (m : WebhookMsg) (g : Guest) (gidStr : String)
    (hty : m.msgType = some "status-update") (hst : m.status = some "failed")
    (hmd : m.metadata.guestId = some gidStr) (hne : gidStr ≠ "")
    (hp : pyParseInt gidStr = some g.id)
    (hg : get_guest_by_id s g.id = some g)
    (hcs : g.call_status = "Failed - API Error" ∨ g.call_status = "Call Failed") :
    (webhook s m).2 = s := by
  have hne' : (gidStr == "") = false := by simpa using hne
  rcases hcs with hcs | hcs <;> simp [webhook, hty, hst, hmd, hne', hp, hg, hcs]

def c9Guest : Guest := ⟨2, 1, "Maya", "+15550000001", "Call Failed"⟩

def c9State : DBState := ⟨[c9Guest], [1], []⟩

def c9Msg : WebhookMsg :=
  ⟨some "status-update", some "failed", ⟨some "2", none⟩, ⟨none, ⟨none, none, none⟩⟩⟩

/-- C9 witness: a concrete guest in state `"Call Failed"` survives a
concrete failed status-update unchanged. -/
theorem C9_witness : (webhook c9State c9Msg).2 = c9State :=
  C9_failure_states_terminal c9State c9Msg c9Guest "2" rfl rfl rfl (by decide)
    (by decide) (by decide) (Or.inr rfl)

/-! ### C10 -/

/-- C10: `create_rsvp` returns `none` and leaves the state unchanged
whenever the referenced guest or event is missing, and any created RSVP row
implies both existed and exactly that row was appended. -/
theorem C10_create_rsvp_guard (s : DBState) (gid eid : Int) (d : RSVPData) :
    (get_guest_by_id s gid = none ∨ s.events.contains eid = false →
      create_rsvp s gid eid d = (none, s)) ∧
    (∀ r s1, create_rsvp s gid eid d = (some r, s1) →
      (∃ g, get_guest_by_id s gid = some g) ∧ s.events.contains eid = true ∧
        s1.rsvps = s.rsvps ++ [r]) := by
  constructor
  · intro h
    unfold create_rsvp
    cases hg : get_guest_by_id s gid with
    | none => rfl
    | some g =>
      rcases h with h | h
      · rw [hg] at h; cases h
      · have h' : eid ∉ s.events := by simpa using h
        simp [h']
  · intro r s1 hc
    unfold create_rsvp at hc
    cases hg : get_guest_by_id s gid with
    | none => rw [hg] at hc; simp at hc
    | some g =>
      rw [hg] at hc
      by_cases he : eid ∈ s.events
      · rw [if_pos (by simpa using he)] at hc
        dsimp only at hc
        injection hc with h1 h2
        cases h1
        refine ⟨⟨g, rfl⟩, by simpa using he, ?_⟩
        rw [← h2]
      · rw [if_neg (by simpa using he)] at hc
        simp at hc


def c10State : DBState := ⟨[⟨1, 1, "Liam", "+15551234567", "Not Called"⟩], [1], []⟩

def c10Data : RSVPData := ⟨"Yes", "Sounds great", none, none⟩

/-- C10 witness: with a concrete database holding guest 1 and event 1,
`create_rsvp` for the missing guest 99 returns `none` and leaves the state
unchanged. -/
theorem C10_witness : create_rsvp c10State 99 1 c10Data = (none, c10State) :=
  (C10_create_rsvp_guard c10State 99 1 c10Data).1 (Or.inl (by decide))

/-! ### C3 -/

/-- C3: every dispatch attempt for a guest with a truthy database id
performs exactly one status write and never lets an exception escape
(`initiate_vapi_call` is total on every provider outcome): a submission
returning a call id yields `"Called - Initiated"`, a submission returning
no call id or raising any exception yields `"Failed - API Error"`. -/
theorem C3_dispatch_exactly_once (gid : Int) (net : VapiNet) (h : gid ≠ 0) :
    (initiate_vapi_call gid net).length = 1 ∧
    (∀ cid, make_outbound_call net = Except.ok (some cid) →
      initiate_vapi_call gid net = [(gid, "Called - Initiated")]) ∧
    (make_outbound_call net = Except.ok none →
      initiate_vapi_call gid net = [(gid, "Failed - API Error")]) ∧
    (∀ e, make_outbound_call net = Except.error e →
      initiate_vapi_call gid net = [(gid, "Failed - API Error")]) := by
  have h0 : (gid == 0) = false := by simpa using h
  refine ⟨initiate_vapi_call_length gid net h, ?_, ?_, ?_⟩
  · intro cid hc
    unfold initiate_vapi_call
    rw [hc]
  · intro hc
    unfold initiate_vapi_call
    rw [hc]
  · intro e hc
    unfold initiate_vapi_call
    rw [hc]
    simp [h0]

/-- C3 witness: a concrete dispatch for guest 7 whose POST raises a
transport exception writes exactly `"Failed - API Error"` once. -/
theorem C3_witness :
    initiate_vapi_call 7 VapiNet.transportErr = [(7, "Failed - API Error")] ∧
    (initiate_vapi_call 7 VapiNet.transportErr).length = 1 :=
  ⟨(C3_dispatch_exactly_once 7 VapiNet.transportErr (by decide)).2.2.1 rfl,
   (C3_dispatch_exactly_once 7 VapiNet.transportErr (by decide)).1⟩

/-! ### C1 -/

def c1Guest : Guest := ⟨1, 1, "Liam", "+15551234567", "Called - Initiated"⟩

def c1State : DBState := ⟨[c1Guest], [1], []⟩

def c1Msg : WebhookMsg :=
  ⟨some "end-of-call-report", none, ⟨some "1", some "1"⟩,
   ⟨some "Sounds great", ⟨some "banana", none, none⟩⟩⟩

/-- C1 counterexample: an end-of-call report whose `rsvp_response` is
`"banana"` — outside {yes, no, maybe} in any case — persists the RSVP
response `"Banana"`, not `"No Response"` as the claim states. -/
theorem C1_counterexample :
    ((webhook c1State c1Msg).2.rsvps.map (fun r => r.response)) = ["Banana"] ∧
    ("Banana" : String) ≠ "No Response" := by
  constructor
  · decide
  · decide

/-- C1 amended: for every end-of-call report with parsable correlation ids
referencing an existing guest and event, the persisted RSVP response is the
Python `capitalize` of the raw `structuredData.rsvp_response` after
defaulting an absent or blank value to `"No Response"`; no whitelist forcing
occurs.  Hence `"yes"`, `"Yes"` and `"YES"` all persist as `"Yes"`, an
out-of-set value such as `"banana"` persists capitalized as `"Banana"`, and
an absent or blank value persists as `"No response"` (with a lower-case
second word, since `capitalize` lower-cases the rest of the string). -/
theorem C1_persisted_response (s : DBState) (m : WebhookMsg) (g : Guest) (gid eid : Int)
    (gs es : String)
    (hty : m.msgType = some "end-of-call-report")
    (hgs : m.metadata.guestId = some gs) (hgs0 : gs ≠ "")
    (hes : m.metadata.eventId = some es) (hes0 : es ≠ "")
    (hpg : pyParseInt gs = some gid) (hpe : pyParseInt es = some eid)
    (hg : get_guest_by_id s gid = some g) (he : s.events.contains eid = true) :
    (webhook s m).2.rsvps = s.rsvps ++
      [{ guest_id := gid, event_id := eid,
         response := pyCapitalize (defaultedRsvpResponse m.analysis.structuredData.rsvp_response),
         summary := m.analysis.summary.getD "",
         special_request := m.analysis.structuredData.special_request,
         reminder_request := m.analysis.structuredData.reminder_call_details }] ∧
    pyCapitalize (defaultedRsvpResponse (some "yes")) = "Yes" ∧
    pyCapitalize (defaultedRsvpResponse (some "Yes")) = "Yes" ∧
    pyCapitalize (defaultedRsvpResponse (some "YES")) = "Yes" ∧
    pyCapitalize (defaultedRsvpResponse (some "banana")) = "Banana" ∧
    pyCapitalize (defaultedRsvpResponse none) = "No response" ∧
    pyCapitalize (defaultedRsvpResponse (some "  ")) = "No response" := by
  have hgs0' : (gs == "") = false := by simpa using hgs0
  have hes0' : (es == "") = false := by simpa using hes0
  refine ⟨?_, by decide, by decide, by decide, by decide, by decide, by decide⟩
  simp only [webhook, hty, hgs, hes]
  simp only [truthyS, hgs0', hes0', Bool.not_false, Bool.false_or, Option.getD_some]
  simp only [hpg, hpe, create_rsvp, hg, he, if_true]
  simp [update_guest_call_status_rsvps]

/-- C1 witness: the amended characterization applied at the concrete
`"banana"` report against the concrete one-guest database. -/
theorem C1_witness :
    (webhook c1State c1Msg).2.rsvps = c1State.rsvps ++
      [{ guest_id := 1, event_id := 1,
         response := pyCapitalize (defaultedRsvpResponse c1Msg.analysis.structuredData.rsvp_response),
         summary := c1Msg.analysis.summary.getD "",
         special_request := c1Msg.analysis.structuredData.special_request,
         reminder_request := c1Msg.analysis.structuredData.reminder_call_details }] ∧
    pyCapitalize (defaultedRsvpResponse (some "yes")) = "Yes" ∧
    pyCapitalize (defaultedRsvpResponse (some "Yes")) = "Yes" ∧
    pyCapitalize (defaultedRsvpResponse (some "YES")) = "Yes" ∧
    pyCapitalize (defaultedRsvpResponse (some "banana")) = "Banana" ∧
    pyCapitalize (defaultedRsvpResponse none) = "No response" ∧
    pyCapitalize (defaultedRsvpResponse (some "  ")) = "No response" :=
  C1_persisted_response c1State c1Msg c1Guest 1 1 "1" "1" rfl rfl (by decide) rfl
    (by decide) (by decide) (by decide) (by decide) (by decide)

/-! ### C4 -/

def c4State : DBState := ⟨[⟨1, 1, "Liam", "+15551234567", "Called - Initiated"⟩], [1], []⟩

def c4Msg : WebhookMsg :=
  ⟨some "status-update", some "failed", ⟨some "abc", none⟩, ⟨none, ⟨none, none, none⟩⟩⟩

/-- C4 counterexample: a `status-update` webhook whose `metadata.guestId`
(`"abc"`) does not parse as an integer is acknowledged with HTTP 200 — not
rejected with 400 as the claim states — and silently dropped (the state is
unchanged). -/
theorem C4_counterexample :
    (webhook c4State c4Msg).1.code = 200 ∧ (webhook c4State c4Msg).2 = c4State ∧
    (200 : Nat) ≠ 400 := by
  refine ⟨by decide, by decide, by decide⟩

/-- Whether a metadata block has a missing, empty, or non-integer guest or
event id — the condition under which the claim demands an HTTP 400. -/
def idsInvalid (md : Metadata) : Bool :=
  !(truthyS md.guestId) || !(truthyS md.eventId)
    || (pyParseInt (md.guestId.getD "")).isNone || (pyParseInt (md.eventId.getD "")).isNone

/-- C4 amended: missing or non-integer correlation ids are rejected with
HTTP 400 and no database change by the simple callback endpoint and by the
`end-of-call-report` webhook path, but `status-update` webhook messages are
always acknowledged with HTTP 200 — a failed status-update with a missing or
malformed guestId is logged and dropped, not rejected. -/
theorem C4_malformed_ids (s : DBState) (d : CallbackData) (em sm : WebhookMsg)
    (h1 : idsInvalid d.metadata = true)
    (h2 : em.msgType = some "end-of-call-report")
    (h3 : idsInvalid em.metadata = true)
    (h4 : sm.msgType = some "status-update") :
    ((vapi_callback s d).1.code = 400 ∧ (vapi_callback s d).2 = s) ∧
    ((webhook s em).1.code = 400 ∧ (webhook s em).2 = s) ∧
    (webhook s sm).1.code = 200 := by
  refine ⟨?_, ?_, ?_⟩
  · unfold vapi_callback
    by_cases ht : (!truthyS d.metadata.guestId || !truthyS d.metadata.eventId) = true
    · simp [ht]
    · rw [if_neg (by simp [ht])]
      unfold idsInvalid at h1
      rw [Bool.or_eq_true, Bool.or_eq_true] at h1
      rcases h1 with (h1 | h1) | h1
      · exact absurd h1 ht
      · cases hp : pyParseInt (d.metadata.guestId.getD "") with
        | none => cases hq : pyParseInt (d.metadata.eventId.getD "") <;> simp [hp, hq]
        | some v => rw [hp] at h1; simp at h1
      · cases hq : pyParseInt (d.metadata.eventId.getD "") with
        | none => cases hp : pyParseInt (d.metadata.guestId.getD "") <;> simp [hp, hq]
        | some v => rw [hq] at h1; simp at h1
  · unfold webhook
    rw [if_neg (by simp [h2]), if_pos (by simp [h2])]
    by_cases ht : (!truthyS em.metadata.guestId || !truthyS em.metadata.eventId) = true
    · simp [ht]
    · rw [if_neg (by simp [ht])]
      unfold idsInvalid at h3
      rw [Bool.or_eq_true, Bool.or_eq_true] at h3
      rcases h3 with (h3 | h3) | h3
      · exact absurd h3 ht
      · cases hp : pyParseInt (em.metadata.guestId.getD "") with
        | none => cases hq : pyParseInt (em.metadata.eventId.getD "") <;> simp [hp, hq]
        | some v => rw [hp] at h3; simp at h3
      · cases hq : pyParseInt (em.metadata.eventId.getD "") with
        | none => cases hp : pyParseInt (em.metadata.guestId.getD "") <;> simp [hp, hq]
        | some v => rw [hq] at h3; simp at h3
  · unfold webhook
    rw [if_pos (by simp [h4])]
    (repeat' split) <;> rfl

def c4CbData : CallbackData := ⟨some "success", ⟨none, some "1"⟩, some "yes please", none, none⟩

def c4EocMsg : WebhookMsg :=
  ⟨some "end-of-call-report", none, ⟨some "1", some "xyz"⟩, ⟨none, ⟨some "yes", none, none⟩⟩⟩

/-- C4 witness: the amended behaviour at concrete malformed inputs — a
callback missing its guestId and an end-of-call report with a non-integer
eventId both get 400 with no state change, while a concrete status-update
gets 200. -/
theorem C4_witness :
    ((vapi_callback c4State c4CbData).1.code = 400 ∧ (vapi_callback c4State c4CbData).2 = c4State) ∧
    ((webhook c4State c4EocMsg).1.code = 400 ∧ (webhook c4State c4EocMsg).2 = c4State) ∧
    (webhook c4State c4Msg).1.code = 200 :=
  C4_malformed_ids c4State c4CbData c4EocMsg c4Msg (by decide) rfl (by decide) rfl

/-! ### C5 -/

def c5Guest : Guest := ⟨1, 1, "Liam", "+15551234567", "Not Called"⟩

/-- C5 counterexample: for a one-guest list and a successful provider
response, the per-guest path performs the transition
`"Called - Initiated"` for the guest while the batch-dispatch variant
performs no guest status transition at all, and its request metadata carries
no guestId (the per-guest request does). -/
theorem C5_counterexample :
    per_guest_dispatch [c5Guest] (fun _ => VapiNet.ok ["call_1"]) =
      [(1, "Called - Initiated")] ∧
    (make_bulk_outbound_call [c5Guest] (some "1") (some "JBF") (VapiNet.ok ["call_1"])).2 = [] ∧
    ([((1 : Int), "Called - Initiated")] ≠ ([] : List (Int × String))) ∧
    (bulk_call_payload [c5Guest] (some "1") (some "JBF")).metadata.guestId = none ∧
    (single_call_payload c5Guest (some "1") (some "JBF")).metadata.guestId = some "1" := by
  refine ⟨by decide, rfl, by decide, rfl, by decide⟩

/-- C5 amended: the batch-dispatch variant is not equivalent to per-guest
dispatch.  For every guest list and provider outcome it performs zero guest
call_status transitions (it contains no status update and has no caller that
applies one), and its request metadata omits `guestId`, embedding the id
only in the customer `name` field; the per-guest path performs exactly one
transition per guest (with truthy ids) and carries `guestId` in metadata. -/
theorem C5_bulk_not_equivalent (guests : List Guest) (eid vsid : Option String)
    (net : VapiNet) (netf : Int → VapiNet) (g0 : Guest)
    (h : ∀ g ∈ guests, g.id ≠ 0) :
    (make_bulk_outbound_call guests eid vsid net).2 = [] ∧
    (per_guest_dispatch guests netf).length = guests.length ∧
    (bulk_call_payload guests eid vsid).metadata.guestId = none ∧
    (bulk_call_payload guests eid vsid).customers =
      guests.map (fun g => { number := g.phone_number,
                             name := g.guest_name ++ " [" ++ toString g.id ++ "]" }) ∧
    (single_call_payload g0 eid vsid).metadata.guestId = some (toString g0.id) := by
  refine ⟨?_, ?_, rfl, rfl, rfl⟩
  · cases net <;> rfl
  · unfold per_guest_dispatch
    induction guests with
    | nil => rfl
    | cons g gs ih =>
      simp only [List.map_cons, List.flatten_cons, List.length_append, List.length_cons]
      rw [initiate_vapi_call_length g.id (netf g.id) (h g (List.mem_cons_self ..)),
        ih (fun x hx => h x (List.mem_cons_of_mem _ hx))]
      omega

/-- C5 witness: the amended statement at a concrete one-guest list and a
successful outcome. -/
theorem C5_witness :
    (make_bulk_outbound_call [c5Guest] (some "1") (some "JBF") (VapiNet.ok ["call_1"])).2 = [] ∧
    (per_guest_dispatch [c5Guest] (fun _ => VapiNet.ok ["call_1"])).length = [c5Guest].length ∧
    (bulk_call_payload [c5Guest] (some "1") (some "JBF")).metadata.guestId = none ∧
    (bulk_call_payload [c5Guest] (some "1") (some "JBF")).customers =
      [c5Guest].map (fun g => { number := g.phone_number,
                                name := g.guest_name ++ " [" ++ toString g.id ++ "]" }) ∧
    (single_call_payload c5Guest (some "1") (some "JBF")).metadata.guestId =
      some (toString c5Guest.id) :=
  C5_bulk_not_equivalent [c5Guest] (some "1") (some "JBF") (VapiNet.ok ["call_1"])
    (fun _ => VapiNet.ok ["call_1"]) c5Guest (by decide)

/-! ### C6 -/

def c6Event : EventRec :=
  ⟨some "Asha", some "birthday party", some ⟨2025, 6, 20⟩, some ⟨19, 0⟩, some "3 hours",
   some "12 Rose Street", none, some "please arrive 30 minutes early", some ⟨2025, 6, 15⟩⟩

/-- C6 counterexample: with event time 19:00 and special instructions
`"please arrive 30 minutes early"` — a digit token next to the word
"arrive" — the script templater's `[ArrivalTime]` is still `"6:45 PM"`
(15 minutes before), not the `"6:30 PM"` the claimed override would give;
the vapi-handler path does read the 30 but produces the literal phrase
`"30 minutes before the event"`, not a clock time. -/
theorem C6_counterexample :
    lookupVal (variable_values c6Event "GuestNameToken") "[ArrivalTime]" = "6:45 PM" ∧
    occursIn "arrive".toList (strLower "please arrive 30 minutes early").toList = true ∧
    firstDigitToken (strLower "please arrive 30 minutes early") = some 30 ∧
    vapi_arrival_time "please arrive 30 minutes early" = "30 minutes before the event" ∧
    ("6:45 PM" : String) ≠ "6:30 PM" := by
  refine ⟨by decide, by decide, by decide, by decide, by decide⟩

/-- The spec-level clock time `n` minutes (at most a day) before `t`. -/
def specSubMinutes (t : TimeHM) (n : Nat) : TimeHM :=
  let total := (t.hour * 60 + t.minute + (1440 - n % 1440)) % 1440
  ⟨total / 60, total % 60⟩

/-- C6 amended: in `_generate_event_script` the `[ArrivalTime]` value is
always the clock time exactly 15 minutes before the event time whenever date
and time are present — the special-instructions override is never consulted
there (two events differing only in their other fields get the same value);
in `make_outbound_call` the `[ArrivalTime]` value is the literal phrase
`"<n> minutes before the event"` with `n` the first digit token of the
instructions when `"arrive"` occurs in them, and 15 otherwise — never a
clock time. -/
theorem C6_arrival_time (e e' : EventRec) (d : DateYMD) (t : TimeHM) (gp : String)
    (hd : e.event_date = some d) (ht : e.event_time = some t)
    (hd' : e'.event_date = some d) (ht' : e'.event_time = some t) :
    lookupVal (variable_values e gp) "[ArrivalTime]" =
      fmt12 (specSubMinutes t 15).hour (specSubMinutes t 15).minute ∧
    lookupVal (variable_values e' gp) "[ArrivalTime]" =
      lookupVal (variable_values e gp) "[ArrivalTime]" ∧
    (∀ si, occursIn "arrive".toList (strLower si).toList = false →
      vapi_arrival_time si = "15 minutes before the event") ∧
    (∀ si n, occursIn "arrive".toList (strLower si).toList = true →
      firstDigitToken (strLower si) = some n →
      vapi_arrival_time si = toString n ++ " minutes before the event") := by
  have key : ∀ ev : EventRec, ev.event_date = some d → ev.event_time = some t →
      lookupVal (variable_values ev gp) "[ArrivalTime]" =
        fmt12 (specSubMinutes t 15).hour (specSubMinutes t 15).minute := by
    intro ev hdd htt
    simp only [lookupVal, variable_values, List.find?]
    norm_num
    rw [hdd, htt]
    simp [gen_arrival_time, specSubMinutes]
  refine ⟨key e hd ht, ?_, ?_, ?_⟩
  · rw [key e' hd' ht', key e hd ht]
  · intro si hno
    have hno' : occursIn ['a', 'r', 'r', 'i', 'v', 'e'] (strLower si).data = false := hno
    simp [vapi_arrival_time, hno']
  · intro si n hyes htok
    have hyes' : occursIn ['a', 'r', 'r', 'i', 'v', 'e'] (strLower si).data = true := hyes
    simp [vapi_arrival_time, hyes', htok]

/-- C6 witness: the amended characterization at the concrete event (19:00,
override-bearing instructions) and at a concrete instruction string with no
"arrive". -/
theorem C6_witness :
    (lookupVal (variable_values c6Event "GuestNameToken") "[ArrivalTime]" =
      fmt12 (specSubMinutes ⟨19, 0⟩ 15).hour (specSubMinutes ⟨19, 0⟩ 15).minute ∧
    lookupVal (variable_values c6Event "GuestNameToken") "[ArrivalTime]" =
      lookupVal (variable_values c6Event "GuestNameToken") "[ArrivalTime]" ∧
    (∀ si, occursIn "arrive".toList (strLower si).toList = false →
      vapi_arrival_time si = "15 minutes before the event") ∧
    (∀ si n, occursIn "arrive".toList (strLower si).toList = true →
      firstDigitToken (strLower si) = some n →
      vapi_arrival_time si = toString n ++ " minutes before the event")) ∧
    vapi_arrival_time "be punctual" = "15 minutes before the event" := by
  have main := C6_arrival_time c6Event c6Event ⟨2025, 6, 20⟩ ⟨19, 0⟩ "GuestNameToken"
    rfl rfl rfl rfl
  exact ⟨main, main.2.2.1 "be punctual" (by decide)⟩

/-! ### C7 -/

/-- C7 counterexample: the string `"+٣"` — a plus sign followed by the
Arabic-Indic digit three — is accepted by the source's validation
(`'٣'.isdigit()` is true in Python) but does not match `^\+[0-9]+$`. -/
theorem C7_counterexample :
    python_phone_valid ['+', '٣'] = true ∧ spec_e164 ['+', '٣'] = false := by
  refine ⟨by decide, by decide⟩

/-- On a list of ASCII characters, the Python digit test agrees with the
ASCII digit test. -/
theorem all_pyIsDigit_ascii (l : List Char) (h : ∀ c ∈ l, c.toNat < 128) :
    l.all pyIsDigitChar = l.all Char.isDigit := by
  induction l with
  | nil => rfl
  | cons c cs ih =>
    have hc := h c (List.mem_cons_self ..)
    have h1 : ¬(0x660 ≤ c.toNat) := by omega
    have h2 : (c.toNat == 0xB9) = false := by simp; omega
    have h3 : (c.toNat == 0xB2) = false := by simp; omega
    have h4 : (c.toNat == 0xB3) = false := by simp; omega
    simp only [List.all_cons, ih (fun x hx => h x (List.mem_cons_of_mem _ hx))]
    simp [pyIsDigitChar, h1, h2, h3, h4]

/-- C7 amended: on ASCII-only input the validation coincides with the
spec's regular expression `^\+[0-9]+$`, but in general it is strictly more
permissive: it accepts a `'+'` followed by one or more characters of
Python's wider `isdigit` class (which includes non-ASCII digits such as
Arabic-Indic digits). -/
theorem C7_ascii_agreement (p : List Char) (h : ∀ c ∈ p, c.toNat < 128) :
    python_phone_valid p = spec_e164 p := by
  cases p with
  | nil => rfl
  | cons c rest =>
    simp only [python_phone_valid, spec_e164]
    rw [all_pyIsDigit_ascii rest (fun x hx => h x (List.mem_cons_of_mem _ hx))]

/-- C7 witness: the agreement applied at the ASCII phone number `"+123"`,
which both sides accept. -/
theorem C7_witness :
    python_phone_valid ['+', '1', '2', '3'] = spec_e164 ['+', '1', '2', '3'] ∧
    spec_e164 ['+', '1', '2', '3'] = true :=
  ⟨C7_ascii_agreement ['+', '1', '2', '3'] (by decide), by decide⟩

/-! ### C8 -/

/-- The guest-name placeholder token left in the generated script for later
per-guest substitution. -/
def guestToken : List Char :=
  ['\x7b', '\x7b', 'G', 'u', 'e', 's', 't', 'N', 'a', 'm', 'e', '\x7d', '\x7d']

/-- Occurrences of the guest token cannot start inside a brace-free prefix. -/
theorem countOccur_append_brace_free (xs ys : List Char) (h : '\x7b' ∉ xs) :
    countOccur guestToken (xs ++ ys) = countOccur guestToken ys := by
  induction xs with
  | nil => rfl
  | cons c cs ih =>
    have hc : ('\x7b' == c) = false := by
      simp only [beq_eq_false_iff_ne]
      intro hh
      exact h (hh ▸ List.mem_cons_self ..)
    have hcs : '\x7b' ∉ cs := fun hh => h (List.mem_cons_of_mem _ hh)
    rw [List.cons_append, countOccur]
    rw [show leadsWith guestToken (c :: (cs ++ ys)) = false from by
      simp [guestToken, leadsWith, hc]]
    simpa using ih hcs

/-- A copy of the guest token at the front contributes exactly one
occurrence: the token has no nontrivial self-overlap. -/
theorem countOccur_token_self (ys : List Char) :
    countOccur guestToken (guestToken ++ ys) = 1 + countOccur guestToken ys := by
  simp [guestToken, countOccur, leadsWith]

/-- Counting guest tokens in a concatenation of segments each of which is
either the token itself or brace-free. -/
theorem countOccur_joinSegs (l : List (List Char))
    (h : ∀ s ∈ l, s = guestToken ∨ '\x7b' ∉ s) :
    countOccur guestToken (joinSegs l) = l.countP (fun s => s == guestToken) := by
  induction l with
  | nil => rfl
  | cons s rest ih =>
    have hrest := ih (fun x hx => h x (List.mem_cons_of_mem _ hx))
    rcases h s (List.mem_cons_self ..) with hs | hs
    · subst hs
      show countOccur guestToken (guestToken ++ joinSegs rest) = _
      rw [countOccur_token_self, hrest, List.countP_cons]
      simp [Nat.add_comm]
    · have hne : (s == guestToken) = false := by
        simp only [beq_eq_false_iff_ne]
        intro hh
        subst hh
        exact hs (by decide)
      show countOccur guestToken (s ++ joinSegs rest) = _
      rw [countOccur_append_brace_free _ _ hs, hrest, List.countP_cons, hne]
      simp

/-- A character absent from every segment is absent from their
concatenation. -/
theorem not_mem_joinSegs (ch : Char) (l : List (List Char)) (h : ∀ s ∈ l, ch ∉ s) :
    ch ∉ joinSegs l := by
  induction l with
  | nil => simp [joinSegs]
  | cons s rest ih =>
    intro hmem
    rcases List.mem_append.mp hmem with hh | hh
    · exact h s (List.mem_cons_self ..) hh
    · exact ih (fun x hx => h x (List.mem_cons_of_mem _ hx)) hh

/-- A substituted value is clean when it contains neither an opening brace
nor an opening bracket (so it can neither fake a guest token nor leave a
bracketed placeholder). -/
def cleanStr (v : String) : Prop := '\x7b' ∉ v.toList ∧ '[' ∉ v.toList

instance (v : String) : Decidable (cleanStr v) :=
  inferInstanceAs (Decidable ('\x7b' ∉ v.toList ∧ '[' ∉ v.toList))

/-- A clean value never equals the guest token. -/
theorem clean_ne_token (v : String) (hv : cleanStr v) :
    (v.toList == guestToken) = false := by
  rw [beq_eq_false_iff_ne]
  intro hh
  exact hv.1 (hh.symm ▸ (by decide : '\x7b' ∈ guestToken))

/-- The thirteen substituted values other than the guest-name placeholder,
exactly as `variable_values` computes them (the event-time value serves both
`[EventTime]` and `[AlternateTime]`). -/
def nonGuestValues (e : EventRec) : List String :=
  [pyOrStr e.host_name "the host",
   pyOrStr e.event_type "an event",
   (match e.event_date with
    | some d => fmtLongDate d
    | none => "a future date"),
   fmtEventTime e.event_time,
   pyOrStr e.location "a location",
   pyOrStr e.cultural_preferences "",
   pyOrStr e.special_instructions "",
   pyOrStr e.duration "a few hours",
   (match e.rsvp_deadline with
    | some d => fmtLongDate d
    | none => "soon"),
   gen_arrival_time e.event_date e.event_time,
   derive_dress_code e.special_instructions,
   (match e.event_date with
    | some d => fmtLongDate (nextDay d)
    | none => "the next day")]

/-- C8: for every event whose substituted values are clean (no brace, no
bracket — the spec's "valid Event"), the output of the script templater
contains no bracket character at all (hence no unresolved `[Something]`
placeholder) and exactly one occurrence of the guest-name token. -/
theorem C8_script_shape (e : EventRec)
    (hclean : ∀ v ∈ nonGuestValues e, cleanStr v) :
    '[' ∉ generate_event_script e (String.mk guestToken) ∧
    countOccur guestToken (generate_event_script e (String.mk guestToken)) = 1 := by
  have g1 : cleanStr (pyOrStr e.host_name "the host") := hclean _ (by simp [nonGuestValues])
  have g2 : cleanStr (pyOrStr e.event_type "an event") := hclean _ (by simp [nonGuestValues])
  have g3 : cleanStr (match e.event_date with
    | some d => fmtLongDate d
    | none => "a future date") := hclean _ (by simp [nonGuestValues])
  have g4 : cleanStr (fmtEventTime e.event_time) := hclean _ (by simp [nonGuestValues])
  have g5 : cleanStr (pyOrStr e.location "a location") := hclean _ (by simp [nonGuestValues])
  have g6 : cleanStr (pyOrStr e.cultural_preferences "") := hclean _ (by simp [nonGuestValues])
  have g7 : cleanStr (pyOrStr e.special_instructions "") := hclean _ (by simp [nonGuestValues])
  have g8 : cleanStr (pyOrStr e.duration "a few hours") := hclean _ (by simp [nonGuestValues])
  have g9 : cleanStr (match e.rsvp_deadline with
    | some d => fmtLongDate d
    | none => "soon") := hclean _ (by simp [nonGuestValues])
  have g10 : cleanStr (gen_arrival_time e.event_date e.event_time) :=
    hclean _ (by simp [nonGuestValues])
  have g11 : cleanStr (derive_dress_code e.special_instructions) :=
    hclean _ (by simp [nonGuestValues])
  have g12 : cleanStr (match e.event_date with
    | some d => fmtLongDate (nextDay d)
    | none => "the next day") := hclean _ (by simp [nonGuestValues])
  have hseg : ∀ s ∈ renderSegs promptTemplate (variable_values e (String.mk guestToken)),
      s = guestToken ∨ ('\x7b' ∉ s ∧ '[' ∉ s) := by
    intro s hs
    simp only [renderSegs, promptTemplate, List.map_cons, List.map_nil, List.mem_cons,
      List.not_mem_nil, or_false] at hs
    rcases hs with rfl | rfl | rfl | rfl | rfl | rfl | rfl | rfl | rfl | rfl | rfl | rfl | rfl |
      rfl | rfl | rfl | rfl | rfl | rfl | rfl | rfl | rfl | rfl | rfl | rfl | rfl | rfl | rfl | rfl
    all_goals first
      | exact Or.inl rfl
      | exact Or.inr (by decide)
      | exact Or.inr g1
      | exact Or.inr g2
      | exact Or.inr g3
      | exact Or.inr g4
      | exact Or.inr g5
      | exact Or.inr g6
      | exact Or.inr g7
      | exact Or.inr g8
      | exact Or.inr g9
      | exact Or.inr g10
      | exact Or.inr g11
      | exact Or.inr g12
  constructor
  · exact not_mem_joinSegs '[' _ (fun s hs => by
      rcases hseg s hs with rfl | hv
      · decide
      · exact hv.2)
  · rw [show generate_event_script e (String.mk guestToken) =
      joinSegs (renderSegs promptTemplate (variable_values e (String.mk guestToken))) from rfl]
    rw [countOccur_joinSegs _ (fun s hs => (hseg s hs).imp_right And.left)]
    have hg : ((lookupVal (variable_values e (String.mk guestToken)) "[GuestName]").toList ==
        guestToken) = true := rfl
    have e1 : ((lookupVal (variable_values e (String.mk guestToken)) "[HostName]").toList ==
        guestToken) = false := clean_ne_token _ g1
    have e2 : ((lookupVal (variable_values e (String.mk guestToken)) "[EventType]").toList ==
        guestToken) = false := clean_ne_token _ g2
    have e3 : ((lookupVal (variable_values e (String.mk guestToken)) "[EventDate]").toList ==
        guestToken) = false := clean_ne_token _ g3
    have e4 : ((lookupVal (variable_values e (String.mk guestToken)) "[EventTime]").toList ==
        guestToken) = false := clean_ne_token _ g4
    have e5 : ((lookupVal (variable_values e (String.mk guestToken)) "[Location]").toList ==
        guestToken) = false := clean_ne_token _ g5
    have e6 : ((lookupVal (variable_values e (String.mk guestToken))
        "[CulturalPreferences]").toList == guestToken) = false := clean_ne_token _ g6
    have e7 : ((lookupVal (variable_values e (String.mk guestToken))
        "[SpecialInstructions]").toList == guestToken) = false := clean_ne_token _ g7
    have e8 : ((lookupVal (variable_values e (String.mk guestToken)) "[Duration]").toList ==
        guestToken) = false := clean_ne_token _ g8
    have e9 : ((lookupVal (variable_values e (String.mk guestToken)) "[RSVPDeadline]").toList ==
        guestToken) = false := clean_ne_token _ g9
    have e10 : ((lookupVal (variable_values e (String.mk guestToken)) "[ArrivalTime]").toList ==
        guestToken) = false := clean_ne_token _ g10
    have e11 : ((lookupVal (variable_values e (String.mk guestToken)) "[DressCode]").toList ==
        guestToken) = false := clean_ne_token _ g11
    have e12 : ((lookupVal (variable_values e (String.mk guestToken)) "[AlternateDate]").toList ==
        guestToken) = false := clean_ne_token _ g12
    have e13 : ((lookupVal (variable_values e (String.mk guestToken)) "[AlternateTime]").toList ==
        guestToken) = false := clean_ne_token _ g4
    simp only [renderSegs, promptTemplate, List.map_cons, List.map_nil, List.countP_cons,
      List.countP_nil, hg, e1, e2, e3, e4, e5, e6, e7, e8, e9, e10, e11, e12, e13]
    decide

def c8Event : EventRec :=
  ⟨some "Asha", some "birthday party", some ⟨2025, 6, 20⟩, some ⟨19, 0⟩, some "3 hours",
   some "12 Rose Street", none, some "The dress code is black tie", some ⟨2025, 6, 15⟩⟩

/-- C8 witness: the shape property at a concrete fully-populated event,
whose substituted values are concretely clean. -/
theorem C8_witness :
    '[' ∉ generate_event_script c8Event (String.mk guestToken) ∧
    countOccur guestToken (generate_event_script c8Event (String.mk guestToken)) = 1 :=
  C8_script_shape c8Event (by decide)
